import Mathlib

/-!
# Verification of the streaming-grid reconciliation pipeline

Shallow embedding of the streaming/grid code of this repository:

* `StreamingGridComponent` (streaming-grid component): update batching
  (`bufferTime`), merge (`mergeUpdates`), application to the canonical row
  data (`applyUpdatesToData`) and the flush handler wired by
  `setupBatchUpdates` / `processBatchUpdates`.
* `StreamingService` (streaming service): connection retry loop
  (`retryWhen` with `delay(reconnectDelay || 1000)` and
  `take(maxReconnectAttempts)`), `disconnect`.
* `GridAdapterService` (grid adapter service): null-guarded grid
  operations (selection, filter, transactions, export, counts).

JavaScript values appearing in row objects are modelled by `Val`; a JS
object is an association list of string keys to values (`Obj`), property
access being first-match lookup.  JS `Map` objects are association lists
with insertion-order-preserving `mapSet`.
-/

/-- A JavaScript value as used in stream messages and grid rows: a string,
a number, or a (one-level) nested object.  Nested objects suffice to state
that merging is shallow (a nested object named in an update replaces the
old one wholesale). -/
inductive Val where
  | str : String → Val
  | num : Int → Val
  | obj : List (String × Int) → Val
deriving DecidableEq, Repr

/-- A JavaScript object: association list from property names to values.
Property access is first-match lookup. -/
abbrev Obj := List (String × Val)

/-- First-match association-list lookup (JS property access / `Map.get`). -/
def lookupKV {α β : Type} [DecidableEq α] : List (α × β) → α → Option β
  | [], _ => none
  | p :: rest, k => if p.1 = k then some p.2 else lookupKV rest k

/-- JS `Map.set`: replace the value in place if the key is present
(keeping its original position, as JS `Map` does), otherwise append. -/
def mapSet {α β : Type} [DecidableEq α] (m : List (α × β)) (k : α) (v : β) :
    List (α × β) :=
  match lookupKV m k with
  | some _ => m.map (fun p => if p.1 = k then (k, v) else p)
  | none => m ++ [(k, v)]

/-- JS truthiness of a value: `''` and `0` are falsy, any object is truthy. -/
def truthy : Val → Bool
  | Val.str s => s ≠ ""
  | Val.num n => n ≠ 0
  | Val.obj _ => true

/-- JS truthiness of a possibly-undefined value (`undefined` is falsy). -/
def truthyO : Option Val → Bool
  | none => false
  | some v => truthy v

/-- The expression `item.id || item.key` used by `applyUpdatesToData` to key
its `Map`: the `id` property if truthy, otherwise the `key` property
(possibly `undefined`, modelled as `none`). -/
def objKey (o : Obj) : Option Val :=
  if truthyO (lookupKV o "id") then lookupKV o "id" else lookupKV o "key"

/-- JS object spread `{...a, ...b}`: keys of `a` in order with values
overridden by `b` where `b` names them, followed by the keys of `b` absent
from `a`, in `b`'s order. -/
def spread (a b : Obj) : Obj :=
  a.map (fun p =>
    match lookupKV b p.1 with
    | some v => (p.1, v)
    | none => p) ++
  b.filter (fun q => (lookupKV a q.1).isNone)

namespace StreamingGridComponent

/-- Key of the dedup `Map` in `mergeUpdates`: either a message id/key value,
or the fresh numeric key `Date.now() + Math.random()` generated for
messages whose `id` and `key` are both falsy (modelled as a counter; the
source relies on those numbers being fresh). -/
inductive MKey where
  | ofVal : Val → MKey
  | fresh : Nat → MKey
deriving DecidableEq, Repr

/-- One `forEach` step of `mergeUpdates`: `const id = update.id || update.key;
if (id) updateMap.set(id, update); else updateMap.set(Date.now()+Math.random(), update)`. -/
def mergeStep (acc : List (MKey × Obj) × Nat) (u : Obj) :
    List (MKey × Obj) × Nat :=
  match objKey u with
  | some v =>
    if truthy v then (mapSet acc.1 (MKey.ofVal v) u, acc.2)
    else (mapSet acc.1 (MKey.fresh acc.2) u, acc.2 + 1)
  | none => (mapSet acc.1 (MKey.fresh acc.2) u, acc.2 + 1)

/-- `StreamingGridComponent.mergeUpdates`: deduplicate a batch by
id, keeping the latest update per id, in first-insertion order
(`Array.from(updateMap.values())`). -/
def mergeUpdates (updates : List Obj) : List Obj :=
  ((updates.foldl mergeStep ([], 0)).1).map Prod.snd

/-- The `Map` built by `applyUpdatesToData` from the current data:
`new Map(currentData.map(item => [item.id || item.key, item]))`. -/
def buildDataMap (currentData : List Obj) : List (Option Val × Obj) :=
  currentData.foldl (fun m item => mapSet m (objKey item) item) []

/-- One `forEach` step of `applyUpdatesToData`: shallow-merge onto the
existing row when the id is present in the map, otherwise add the update
object itself as a new row. -/
def applyStep (m : List (Option Val × Obj)) (u : Obj) :
    List (Option Val × Obj) :=
  match lookupKV m (objKey u) with
  | some old => mapSet m (objKey u) (spread old u)
  | none => mapSet m (objKey u) u

/-- `StreamingGridComponent.applyUpdatesToData`: fold the merged updates
over the data map and return `Array.from(dataMap.values())`. -/
def applyUpdatesToData (currentData updates : List Obj) : List Obj :=
  (updates.foldl applyStep (buildDataMap currentData)).map Prod.snd

end StreamingGridComponent

/-- The `StreamMessage` interface of the streaming service. -/
structure StreamMessage where
  topic : String
  payload : Obj
  timestamp : Nat
  partition : Option Nat
  offset : Option Nat
deriving DecidableEq, Repr

/-- The `StreamConfig` interface of the streaming service. -/
structure StreamConfig where
  url : String
  reconnectAttempts : Option Nat
  reconnectDelay : Option Nat
  bufferSize : Option Nat
deriving DecidableEq, Repr

namespace StreamingService

/-- The hardcoded `maxReconnectAttempts = 5` instance field (the config's
`reconnectAttempts` is never read by `connect`). -/
def maxReconnectAttempts : Nat := 5

/-- Mutable service state: the `connectionStatus$` subject's value, the
`reconnectAttempts` counter, and whether `rsocketClient` is set. -/
structure SvcState where
  connectionStatus : Bool
  reconnectAttempts : Nat
  hasClient : Bool
deriving DecidableEq, Repr

/-- The delay applied before every retry by `connect`:
`delay(this.config.reconnectDelay || 1000)` — a fixed duration, taking the
attempt number only to record that the duration does not depend on it. -/
def retryDelay (config : StreamConfig) (attempt : Nat) : Nat :=
  match config.reconnectDelay with
  | some d => if d = 0 then 1000 else d
  | none => 1000

/-- The delays observed over the first `n` retries. -/
def retrySchedule (config : StreamConfig) (n : Nat) : List Nat :=
  (List.range n).map (retryDelay config)

/-- One subscription attempt of the `connect` observable.  `ok` abstracts
whether the injected r-socket client construction succeeds (the checked-in
`createRSocketClient` is a stub that always throws; the transport is an
external collaborator).  Success sets the client and pushes `true` on
`connectionStatus$`; failure runs `handleConnectionError`, which pushes
`false`. -/
def connectOnce (st : SvcState) (ok : Bool) : SvcState :=
  if ok then { st with connectionStatus := true, hasClient := true }
  else { st with connectionStatus := false }

/-- The `retryWhen(errors => errors.pipe(delay(...), take(max), tap(incr)))`
loop: each failure consumes one retry, incrementing `reconnectAttempts`
(the `tap`); after `max` retries the notifier completes and the stream
stops, with no further state change.  A success ends the loop; nothing on
the success path resets the counter. -/
def connectRun (st : SvcState) (outcomes : List Bool) (retriesLeft : Nat) :
    SvcState :=
  match outcomes with
  | [] => st
  | ok :: rest =>
    let st1 := connectOnce st ok
    if ok then st1
    else
      match retriesLeft with
      | 0 => st1
      | n + 1 =>
        connectRun { st1 with reconnectAttempts := st1.reconnectAttempts + 1 }
          rest n

/-- `StreamingService.connect`: run the attempt/retry loop with the
hardcoded maximum of 5 retries.  `outcomes` lists the success/failure of
successive attempts of the injected transport. -/
def connect (st : SvcState) (outcomes : List Bool) : SvcState :=
  connectRun st outcomes maxReconnectAttempts

/-- `StreamingService.disconnect`: close and clear the client, push `false`
on `connectionStatus$`, and reset `reconnectAttempts` to 0. -/
def disconnect (st : SvcState) : SvcState :=
  { connectionStatus := false, reconnectAttempts := 0, hasClient := false }

/-- `StreamingService.subscribeToTopic` (timed view): the messages whose
`topic` matches, as `(timestamp, payload)` pairs in delivery order. -/
def deliveredTimed (topic : String) (msgs : List StreamMessage) :
    List (Nat × Obj) :=
  (msgs.filter (fun m => m.topic = topic)).map (fun m => (m.timestamp, m.payload))

end StreamingService

namespace StreamingGridComponent

/-- `debounceTime(d)` over a timed finite sequence: a value is emitted iff
no later value arrives within `d` of it; otherwise it is discarded and the
timer restarts on the newcomer.  The last value is always emitted. -/
def debounceKeep (d : Nat) : List (Nat × Obj) → List (Nat × Obj)
  | [] => []
  | [m] => [m]
  | m1 :: m2 :: rest =>
    if m2.1 < m1.1 + d then debounceKeep d (m2 :: rest)
    else m1 :: debounceKeep d (m2 :: rest)

/-- The values the component pushes into `updateQueue$`: the topic's
delivered payloads after the `debounceTime(50)` of `subscribeToStream`. -/
def pushedToQueue (topic : String) (msgs : List StreamMessage) :
    List (Nat × Obj) :=
  debounceKeep 50 (StreamingService.deliveredTimed topic msgs)

/-- `bufferTime(interval)` over a timed sequence arriving in chronological
order: group consecutive elements sharing a flush window
(`timestamp / interval`).  Empty windows contribute no group, matching the
`length > 0` guard downstream. -/
def bufferByWindow (interval : Nat) : List (Nat × Obj) → List (List (Nat × Obj))
  | [] => []
  | m :: rest =>
    match bufferByWindow interval rest with
    | [] => [[m]]
    | [] :: gs => [m] :: gs
    | (m2 :: g) :: gs =>
      if m.1 / interval = m2.1 / interval then (m :: m2 :: g) :: gs
      else [m] :: (m2 :: g) :: gs

/-- The batches emitted by the `bufferTime(100)` of `setupBatchUpdates` for
one topic's message sequence. -/
def emittedBatches (topic : String) (msgs : List StreamMessage) :
    List (List (Nat × Obj)) :=
  bufferByWindow 100 (pushedToQueue topic msgs)

end StreamingGridComponent

/-- The filter-model object built by `GridAdapterService.applyFilter`:
`{ [filter.column]: { filterType, type: 'equals', filter: filterValue } }`. -/
structure GridFilterModel where
  column : String
  filterType : String
  condType : String
  filterValue : Val
deriving DecidableEq, Repr

/-- State of the external grid (`GridApi`) as far as the adapter touches it:
its row store, its filter model, its current selection (selected row data
and selected node data), and its displayed-row count. -/
structure GridState where
  rowData : List Obj
  filterModel : Option GridFilterModel
  selectedRows : List Obj
  selectedNodes : List Obj
  displayedRowCount : Nat
deriving DecidableEq, Repr

/-- A call issued against the rendering surface (the `GridApi`).  Transaction
calls carry the row array passed to `applyTransaction`. -/
inductive GridCall where
  | txnAdd : List Obj → GridCall
  | txnUpdate : List Obj → GridCall
  | txnRemove : List Obj → GridCall
  | setRowData : List Obj → GridCall
  | setFilterModel : Option GridFilterModel → GridCall
  | exportCsv : String → Bool → GridCall
  | refreshCells : GridCall
deriving DecidableEq, Repr

/-- The `GridFilter` interface of the adapter. -/
structure GridFilter where
  column : String
  filterType : String
  filterValue : Val
deriving DecidableEq, Repr

/-- `fileName || 'default'`: JS truthiness on an optional string. -/
def jsOrStr (o : Option String) (d : String) : String :=
  match o with
  | some s => if s = "" then d else s
  | none => d

/-- `applyTransaction({update: rows})` on the grid row store: each resident
row matched by key is replaced by the supplied row; unmatched supplied rows
are ignored. -/
def agTxnUpdate (g : GridState) (rows : List Obj) : GridState :=
  { g with rowData := g.rowData.map (fun r =>
      match rows.find? (fun u => decide (objKey u = objKey r)) with
      | some u => u
      | none => r) }

/-- `applyTransaction({add: rows})` on the grid row store: append. -/
def agTxnAdd (g : GridState) (rows : List Obj) : GridState :=
  { g with rowData := g.rowData ++ rows }

/-- `applyTransaction({remove: rows})` on the grid row store: delete the
resident rows matched by key. -/
def agTxnRemove (g : GridState) (rows : List Obj) : GridState :=
  { g with rowData := g.rowData.filter (fun r =>
      !(rows.any (fun u => decide (objKey u = objKey r)))) }

namespace GridAdapterService

/-- `GridAdapterService.getSelectedRows`: `[]` when the handle is absent. -/
def getSelectedRows (gridApi : Option GridState) : List Obj :=
  match gridApi with
  | none => []
  | some g => g.selectedRows

/-- `GridAdapterService.getSelectedNodes`: `[]` when the handle is absent. -/
def getSelectedNodes (gridApi : Option GridState) : List Obj :=
  match gridApi with
  | none => []
  | some g => g.selectedNodes

/-- The `GridSelection` record returned by `getSelection`. -/
structure GridSelection where
  selectedRows : List Obj
  selectedNodes : List Obj
  selectedCount : Nat
deriving DecidableEq, Repr

/-- `GridAdapterService.getSelection`: bundles selected rows, nodes, count. -/
def getSelection (gridApi : Option GridState) : GridSelection :=
  { selectedRows := getSelectedRows gridApi
    selectedNodes := getSelectedNodes gridApi
    selectedCount := (getSelectedRows gridApi).length }

/-- `GridAdapterService.applyFilter`: null-guarded; builds the filter model
and calls `gridApi.setFilterModel(filterModel)`. -/
def applyFilter (gridApi : Option GridState) (f : GridFilter) :
    Option GridState × List GridCall :=
  match gridApi with
  | none => (none, [])
  | some g =>
    let fm : GridFilterModel :=
      { column := f.column, filterType := f.filterType,
        condType := "equals", filterValue := f.filterValue }
    (some { g with filterModel := some fm }, [GridCall.setFilterModel (some fm)])

/-- `GridAdapterService.clearFilters`: null-guarded; `setFilterModel(null)`. -/
def clearFilters (gridApi : Option GridState) :
    Option GridState × List GridCall :=
  match gridApi with
  | none => (none, [])
  | some g =>
    (some { g with filterModel := none }, [GridCall.setFilterModel none])

/-- `GridAdapterService.addRows`: null-guarded; one
`applyTransaction({add: newRows})`. -/
def addRows (gridApi : Option GridState) (newRows : List Obj) :
    Option GridState × List GridCall :=
  match gridApi with
  | none => (none, [])
  | some g => (some (agTxnAdd g newRows), [GridCall.txnAdd newRows])

/-- `GridAdapterService.updateRows`: null-guarded; one
`applyTransaction({update: updatedRows})`. -/
def updateRows (gridApi : Option GridState) (updatedRows : List Obj) :
    Option GridState × List GridCall :=
  match gridApi with
  | none => (none, [])
  | some g => (some (agTxnUpdate g updatedRows), [GridCall.txnUpdate updatedRows])

/-- `GridAdapterService.removeRows`: null-guarded; one
`applyTransaction({remove: rowsToRemove})`. -/
def removeRows (gridApi : Option GridState) (rowsToRemove : List Obj) :
    Option GridState × List GridCall :=
  match gridApi with
  | none => (none, [])
  | some g => (some (agTxnRemove g rowsToRemove), [GridCall.txnRemove rowsToRemove])

/-- `GridAdapterService.exportToCsv`: null-guarded; exports all rows with
`fileName || 'grid-export'`. -/
def exportToCsv (gridApi : Option GridState) (fileName : Option String) :
    Option GridState × List GridCall :=
  match gridApi with
  | none => (none, [])
  | some g => (some g, [GridCall.exportCsv (jsOrStr fileName "grid-export") false])

/-- `GridAdapterService.exportSelectedToCsv`: null-guarded; exports the
selection with `fileName || 'grid-selected-export'`. -/
def exportSelectedToCsv (gridApi : Option GridState) (fileName : Option String) :
    Option GridState × List GridCall :=
  match gridApi with
  | none => (none, [])
  | some g =>
    (some g, [GridCall.exportCsv (jsOrStr fileName "grid-selected-export") true])

/-- `GridAdapterService.getVisibleRowCount`: `0` when the handle is absent,
otherwise `gridApi.getDisplayedRowCount()`. -/
def getVisibleRowCount (gridApi : Option GridState) : Nat :=
  match gridApi with
  | none => 0
  | some g => g.displayedRowCount

end GridAdapterService

namespace StreamingGridComponent

/-- Component state: the grid handle (absent until `onGridReady`) and the
canonical row data held in the `rowData$` subject. -/
structure CompState where
  gridApi : Option GridState
  rowData : List Obj
deriving DecidableEq, Repr

/-- `StreamingGridComponent.processBatchUpdates`: bail out when no grid
handle, else merge the batch, issue the adapter update against the grid,
and replace the `rowData$` value with the merged application.  Returns the
new component state and the rendering-surface calls issued. -/
def processBatchUpdates (st : CompState) (updates : List Obj) :
    CompState × List GridCall :=
  match st.gridApi with
  | none => (st, [])
  | some g =>
    let mergedUpdates := mergeUpdates updates
    let r := GridAdapterService.updateRows (some g) mergedUpdates
    let updatedData := applyUpdatesToData st.rowData mergedUpdates
    ({ gridApi := r.1, rowData := updatedData }, r.2)

/-- The subscriber body wired by `StreamingGridComponent.setupBatchUpdates`:
for one `bufferTime(100)` window, drop `null` entries and process the batch
only when non-empty (`if (updates.length > 0)`). -/
def onBatchWindow (st : CompState) (buffer : List (Option Obj)) :
    CompState × List GridCall :=
  let updates := buffer.filterMap id
  if updates.length > 0 then processBatchUpdates st updates else (st, [])

/-- `StreamingGridComponent.applyFilter`: guarded on the grid handle, then
delegates to the adapter with `filterType: 'text'`. -/
def applyFilter (st : CompState) (column : String) (value : Val) :
    CompState × List GridCall :=
  match st.gridApi with
  | none => (st, [])
  | some g =>
    let r := GridAdapterService.applyFilter (some g)
      { column := column, filterType := "text", filterValue := value }
    ({ st with gridApi := r.1 }, r.2)

/-- `StreamingGridComponent.clearFilters`: guarded on the grid handle, then
delegates to the adapter. -/
def clearFilters (st : CompState) : CompState × List GridCall :=
  match st.gridApi with
  | none => (st, [])
  | some g =>
    let r := GridAdapterService.clearFilters (some g)
    ({ st with gridApi := r.1 }, r.2)

end StreamingGridComponent

/-! ## Concrete fixtures used in witnesses and counterexamples -/

/-- Scenario A, first message: `{key:'1', price:10}`. -/
def msgA : Obj := [("key", Val.str "1"), ("price", Val.num 10)]

/-- Scenario A, second message: `{key:'1', price:12}`. -/
def msgB : Obj := [("key", Val.str "1"), ("price", Val.num 12)]

/-- A resident row for key `'2'`. -/
def row2 : Obj := [("key", Val.str "2"), ("price", Val.num 5)]

/-- Scenario B, update message for key `'2'`. -/
def updMsg2 : Obj :=
  [("key", Val.str "2"), ("op", Val.str "update"), ("price", Val.num 7)]

/-- Scenario B, removal message for key `'2'`. -/
def remMsg2 : Obj := [("key", Val.str "2"), ("op", Val.str "remove")]

/-- A grid whose row store holds exactly `row2`. -/
def grid2 : GridState :=
  { rowData := [row2], filterModel := none, selectedRows := [],
    selectedNodes := [], displayedRowCount := 1 }

/-- Component state with `grid2` ready and `rowData$` holding `row2`. -/
def stC1 : StreamingGridComponent.CompState :=
  { gridApi := some grid2, rowData := [row2] }

/-- An empty, ready grid. -/
def gridEmpty : GridState :=
  { rowData := [], filterModel := none, selectedRows := [],
    selectedNodes := [], displayedRowCount := 0 }

/-- Component state with an empty grid and empty `rowData$`. -/
def stEmpty : StreamingGridComponent.CompState :=
  { gridApi := some gridEmpty, rowData := [] }

/-- Payload of the first (dropped) message in the debounce counterexample. -/
def objA : Obj := [("key", Val.str "a")]

/-- Payload of the second message in the debounce counterexample. -/
def objB : Obj := [("key", Val.str "b")]

/-- Two messages on topic `t`, 10 ms apart — within the 50 ms debounce. -/
def msgsC4 : List StreamMessage :=
  [{ topic := "t", payload := objA, timestamp := 0, partition := none,
     offset := none },
   { topic := "t", payload := objB, timestamp := 10, partition := none,
     offset := none }]

/-- A stream config with base reconnect delay 100 ms. -/
def cfg100 : StreamConfig :=
  { url := "u", reconnectAttempts := some 3, reconnectDelay := some 100,
    bufferSize := none }

/-- Fresh service state: disconnected, zero attempts, no client. -/
def svcInit : StreamingService.SvcState :=
  { connectionStatus := false, reconnectAttempts := 0, hasClient := false }

/-- Existing row for the shallow-merge witness: a `price` field and a nested
`meta` object. -/
def rowX : Obj :=
  [("key", Val.str "1"), ("price", Val.num 10), ("meta", Val.obj [("a", 1)])]

/-- Update for the shallow-merge witness: names only `meta`, with a nested
object disjoint from the old one. -/
def mX : Obj := [("key", Val.str "1"), ("meta", Val.obj [("b", 2)])]

/-! ## Association-list lemmas -/

section ListMapLemmas

variable {α β : Type} [DecidableEq α]

theorem lookupKV_append (l1 l2 : List (α × β)) (k : α) :
    lookupKV (l1 ++ l2) k
      = (match lookupKV l1 k with
         | some v => some v
         | none => lookupKV l2 k) := by
  induction l1 with
  | nil => simp [lookupKV]
  | cons p rest ih =>
    by_cases h : p.1 = k
    · simp [lookupKV, h]
    · simp [lookupKV, h, ih]

theorem lookupKV_eq_none (l : List (α × β)) (k : α)
    (h : ∀ p ∈ l, p.1 ≠ k) : lookupKV l k = none := by
  induction l with
  | nil => rfl
  | cons p rest ih =>
    simp only [lookupKV, if_neg (h p (List.mem_cons_self p rest))]
    exact ih fun q hq => h q (List.mem_cons_of_mem p hq)

theorem mapSet_replace_middle (l1 l2 : List (α × β)) (k : α) (x v : β)
    (h1 : ∀ p ∈ l1, p.1 ≠ k) (h2 : ∀ p ∈ l2, p.1 ≠ k) :
    mapSet (l1 ++ (k, x) :: l2) k v = l1 ++ (k, v) :: l2 := by
  have hl : lookupKV (l1 ++ (k, x) :: l2) k = some x := by
    rw [lookupKV_append, lookupKV_eq_none l1 k h1]
    simp [lookupKV]
  have e1 : l1.map (fun p => if p.1 = k then (k, v) else p) = l1 :=
    (List.map_congr_left fun p hp => if_neg (h1 p hp)).trans (List.map_id l1)
  have e2 : l2.map (fun p => if p.1 = k then (k, v) else p) = l2 :=
    (List.map_congr_left fun p hp => if_neg (h2 p hp)).trans (List.map_id l2)
  simp [mapSet, hl, List.map_append, List.map_cons, e1, e2]

theorem mapSet_append_absent (l : List (α × β)) (k : α) (v : β)
    (h : lookupKV l k = none) : mapSet l k v = l ++ [(k, v)] := by
  simp only [mapSet, h]

end ListMapLemmas

/-! ## Lemmas on `spread` (JS object spread) -/

theorem lookupKV_spread_left (a b : Obj) (k : String) :
    lookupKV (a.map (fun p =>
        match lookupKV b p.1 with
        | some v => (p.1, v)
        | none => p)) k
      = (match lookupKV a k with
         | some v => some ((lookupKV b k).getD v)
         | none => none) := by
  induction a with
  | nil => simp [lookupKV]
  | cons p rest ih =>
    by_cases h : p.1 = k
    · subst h
      rcases hb : lookupKV b p.1 with _ | v <;> simp [lookupKV, hb]
    · rcases hb : lookupKV b p.1 with _ | v <;> simp [lookupKV, h, hb, ih]

theorem lookupKV_spread_right (a b : Obj) (k : String) :
    lookupKV (b.filter (fun q => (lookupKV a q.1).isNone)) k
      = (match lookupKV a k with
         | some _ => none
         | none => lookupKV b k) := by
  induction b with
  | nil => rcases lookupKV a k with _ | v <;> simp [lookupKV]
  | cons q rest ih =>
    by_cases hq : q.1 = k
    · subst hq
      rcases ha : lookupKV a q.1 with _ | w <;>
        simp [List.filter_cons, ha, lookupKV, ih]
    · rcases ha : lookupKV a q.1 with _ | w
      · rcases ha' : lookupKV a k with _ | w' <;>
          simp [List.filter_cons, ha, ha', lookupKV, hq, ih]
      · rcases ha' : lookupKV a k with _ | w' <;>
          simp [List.filter_cons, ha, ha', lookupKV, hq, ih]

theorem lookupKV_spread (a b : Obj) (k : String) :
    lookupKV (spread a b) k
      = if (lookupKV b k).isSome then lookupKV b k else lookupKV a k := by
  rw [spread, lookupKV_append, lookupKV_spread_left, lookupKV_spread_right]
  rcases ha : lookupKV a k with _ | v <;> rcases hb : lookupKV b k with _ | w <;>
    simp [ha, hb]

/-! ## Lemmas on `mergeUpdates` -/

namespace StreamingGridComponent

theorem mergeStep_sameKey_nil (v : Val) (hv : truthy v = true) (u : Obj)
    (hu : objKey u = some v) (n : Nat) :
    mergeStep ([], n) u = ([(MKey.ofVal v, u)], n) := by
  simp [mergeStep, hu, hv, mapSet, lookupKV]

theorem mergeStep_sameKey (v : Val) (hv : truthy v = true) (x u : Obj)
    (hu : objKey u = some v) (n : Nat) :
    mergeStep ([(MKey.ofVal v, x)], n) u = ([(MKey.ofVal v, u)], n) := by
  simp [mergeStep, hu, hv, mapSet, lookupKV]

theorem foldl_mergeStep_concat (v : Val) (hv : truthy v = true) :
    ∀ (ms : List Obj) (m : Obj), (∀ u ∈ ms ++ [m], objKey u = some v) →
      ∀ (x : Obj) (n : Nat),
        (ms ++ [m]).foldl mergeStep ([(MKey.ofVal v, x)], n)
          = ([(MKey.ofVal v, m)], n) := by
  intro ms
  induction ms with
  | nil =>
    intro m h x n
    simpa using mergeStep_sameKey v hv x m (h m (by simp)) n
  | cons m0 rest ih =>
    intro m h x n
    rw [List.cons_append, List.foldl_cons,
      mergeStep_sameKey v hv x m0 (h m0 (by simp)) n]
    exact ih m (fun u hu => h u (by simp at hu ⊢; tauto)) m0 n

theorem mergeUpdates_sameKey_last (v : Val) (hv : truthy v = true)
    (ms : List Obj) (m : Obj)
    (h : ∀ u ∈ ms ++ [m], objKey u = some v) :
    mergeUpdates (ms ++ [m]) = [m] := by
  cases ms with
  | nil =>
    rw [mergeUpdates, List.nil_append, List.foldl_cons, List.foldl_nil,
      mergeStep_sameKey_nil v hv m (h m (by simp)) 0]
    rfl
  | cons m0 rest =>
    rw [mergeUpdates, List.cons_append, List.foldl_cons,
      mergeStep_sameKey_nil v hv m0 (h m0 (by simp)) 0,
      foldl_mergeStep_concat v hv rest m
        (fun u hu => h u (by simp at hu ⊢; tauto)) m0 0]
    rfl

/-! ## Lemmas on `applyUpdatesToData` -/

theorem applyUpdatesToData_nil_single (m : Obj) :
    applyUpdatesToData [] [m] = [m] := by
  simp [applyUpdatesToData, buildDataMap, applyStep, mapSet, lookupKV]

theorem map_snd_pair (data : List Obj) :
    (data.map (fun r => (objKey r, r))).map Prod.snd = data := by
  rw [List.map_map]
  exact (List.map_congr_left fun r _ => rfl).trans (List.map_id data)

theorem foldl_buildMap (data : List Obj) :
    ∀ acc : List (Option Val × Obj),
      (∀ r ∈ data, lookupKV acc (objKey r) = none) →
      (data.map objKey).Nodup →
      data.foldl (fun m item => mapSet m (objKey item) item) acc
        = acc ++ data.map (fun r => (objKey r, r)) := by
  induction data with
  | nil => intro acc _ _; simp
  | cons d rest ih =>
    intro acc hacc hnd
    have hnd' := List.nodup_cons.mp ((List.map_cons objKey d rest) ▸ hnd)
    have hrest : ∀ r ∈ rest,
        lookupKV (acc ++ [(objKey d, d)]) (objKey r) = none := by
      intro r hr
      rw [lookupKV_append, hacc r (List.mem_cons_of_mem d hr)]
      have hne : objKey d ≠ objKey r := fun he =>
        hnd'.1 (he ▸ List.mem_map_of_mem objKey hr)
      simp [lookupKV, hne]
    rw [List.foldl_cons,
      mapSet_append_absent acc (objKey d) d (hacc d (List.mem_cons_self d rest)),
      ih (acc ++ [(objKey d, d)]) hrest hnd'.2]
    simp

theorem buildDataMap_eq (data : List Obj)
    (hnd : (data.map objKey).Nodup) :
    buildDataMap data = data.map (fun r => (objKey r, r)) := by
  have h := foldl_buildMap data [] (fun r _ => rfl) hnd
  simpa [buildDataMap] using h

theorem applyUpdatesToData_absent (data : List Obj) (m : Obj)
    (hnd : (data.map objKey).Nodup) (habs : objKey m ∉ data.map objKey) :
    applyUpdatesToData data [m] = data ++ [m] := by
  rw [applyUpdatesToData, buildDataMap_eq data hnd, List.foldl_cons,
    List.foldl_nil]
  have hnone :
      lookupKV (data.map fun r => (objKey r, r)) (objKey m) = none := by
    apply lookupKV_eq_none
    intro p hp
    rcases List.mem_map.mp hp with ⟨r, hr, rfl⟩
    exact fun he => habs (he ▸ List.mem_map_of_mem objKey hr)
  simp only [applyStep, hnone,
    mapSet_append_absent _ (objKey m) m hnone]
  rw [List.map_append, map_snd_pair]
  rfl

theorem applyUpdatesToData_present (pre post : List Obj) (r m : Obj)
    (hnd : ((pre ++ r :: post).map objKey).Nodup)
    (hk : objKey m = objKey r) :
    applyUpdatesToData (pre ++ r :: post) [m] = pre ++ spread r m :: post := by
  have hnd2 : (pre.map objKey ++ objKey r :: post.map objKey).Nodup := by
    simpa using hnd
  have h3 := List.nodup_append.mp hnd2
  have hpre : objKey r ∉ pre.map objKey :=
    fun hmem => h3.2.2 hmem (List.mem_cons_self _ _)
  have hpost : objKey r ∉ post.map objKey := (List.nodup_cons.mp h3.2.1).1
  have hmap : (pre ++ r :: post).map (fun x => (objKey x, x))
      = pre.map (fun x => (objKey x, x))
        ++ (objKey r, r) :: post.map (fun x => (objKey x, x)) := by
    simp
  have hprekeys : ∀ p ∈ pre.map (fun x => (objKey x, x)), p.1 ≠ objKey r := by
    intro p hp
    rcases List.mem_map.mp hp with ⟨y, hy, rfl⟩
    exact fun he => hpre (he ▸ List.mem_map_of_mem objKey hy)
  have hpostkeys : ∀ p ∈ post.map (fun x => (objKey x, x)), p.1 ≠ objKey r := by
    intro p hp
    rcases List.mem_map.mp hp with ⟨y, hy, rfl⟩
    exact fun he => hpost (he ▸ List.mem_map_of_mem objKey hy)
  have hlook : lookupKV
      (pre.map (fun x => (objKey x, x))
        ++ (objKey r, r) :: post.map (fun x => (objKey x, x))) (objKey r)
      = some r := by
    rw [lookupKV_append, lookupKV_eq_none _ _ hprekeys]
    simp [lookupKV]
  rw [applyUpdatesToData, buildDataMap_eq _ hnd, List.foldl_cons,
    List.foldl_nil, hmap]
  simp only [applyStep, hlook, hk,
    mapSet_replace_middle _ _ (objKey r) r (spread r m) hprekeys hpostkeys]
  rw [List.map_append, map_snd_pair, List.map_cons, map_snd_pair]

/-! ## Lemmas on the `bufferTime` window grouping -/

theorem join_bufferByWindow (i : Nat) (l : List (Nat × Obj)) :
    (bufferByWindow i l).join = l := by
  induction l with
  | nil => rfl
  | cons m rest ih =>
    rcases hrec : bufferByWindow i rest with _ | ⟨g, gs⟩
    · rw [hrec] at ih
      simp only [bufferByWindow, hrec]
      simp at ih
      simp [ih.symm]
    · rcases g with _ | ⟨m2, g'⟩
      · rw [hrec] at ih
        simp only [bufferByWindow, hrec]
        simp at ih ⊢
        exact ih
      · rw [hrec] at ih
        simp only [bufferByWindow, hrec]
        by_cases hw : m.1 / i = m2.1 / i
        · simp only [if_pos hw]
          simp at ih ⊢
          exact ih
        · simp only [if_neg hw]
          simp at ih ⊢
          exact ih

theorem bufferByWindow_ne_nil (i : Nat) (l : List (Nat × Obj)) :
    ∀ b ∈ bufferByWindow i l, b ≠ [] := by
  induction l with
  | nil => intro b hb; simp [bufferByWindow] at hb
  | cons m rest ih =>
    intro b hb
    rcases hrec : bufferByWindow i rest with _ | ⟨g, gs⟩
    · simp only [bufferByWindow, hrec] at hb
      simp at hb
      simp [hb]
    · rcases g with _ | ⟨m2, g'⟩
      · exact absurd rfl (ih [] (hrec ▸ List.mem_cons_self [] gs))
      · simp only [bufferByWindow, hrec] at hb
        by_cases hw : m.1 / i = m2.1 / i
        · rw [if_pos hw] at hb
          rcases List.mem_cons.mp hb with h | h
          · simp [h]
          · exact ih b (hrec ▸ List.mem_cons_of_mem (m2 :: g') h)
        · rw [if_neg hw] at hb
          rcases List.mem_cons.mp hb with h | h
          · simp [h]
          · exact ih b (hrec ▸ h)

end StreamingGridComponent

/-! ## Claims -/

/-- C1 (counterexample): with update-then-remove for key `'2'` in one
window, the merge keeps the removal message as an ordinary last update, the
row for `'2'` survives in the canonical data (shallow-merged with the
removal message) instead of being deleted, and the only rendering call is
`updateRows` — no removal is issued, contradicting the claim that the
removal wins and the row is deleted. -/
theorem removal_wins_counterexample :
    StreamingGridComponent.mergeUpdates [updMsg2, remMsg2] = [remMsg2] ∧
    (StreamingGridComponent.processBatchUpdates stC1
        [updMsg2, remMsg2]).1.rowData
      = [[("key", Val.str "2"), ("price", Val.num 5),
          ("op", Val.str "remove")]] ∧
    ((StreamingGridComponent.processBatchUpdates stC1
        [updMsg2, remMsg2]).1.rowData.any
      (fun r => decide (objKey r = some (Val.str "2")))) = true ∧
    (StreamingGridComponent.processBatchUpdates stC1 [updMsg2, remMsg2]).2
      = [GridCall.txnUpdate [remMsg2]] := by
  refine ⟨rfl, rfl, rfl, rfl⟩

/-- C1 (amended): when an update and a removal message target the same key
within one window, the merge keeps only the last message per key regardless
of its `op`; removal messages are not treated specially — the surviving
message is applied like any update, and the flush path never issues a
row-removal call against the rendering surface. -/
theorem removal_not_special (u rm : Obj) (v : Val) (hv : truthy v = true)
    (hu : objKey u = some v) (hrm : objKey rm = some v)
    (st : StreamingGridComponent.CompState) (buf : List (Option Obj))
    (rows : List Obj) :
    StreamingGridComponent.mergeUpdates [u, rm] = [rm] ∧
    GridCall.txnRemove rows ∉ (StreamingGridComponent.onBatchWindow st buf).2 := by
  constructor
  · refine StreamingGridComponent.mergeUpdates_sameKey_last v hv [u] rm ?_
    intro x hx
    simp at hx
    rcases hx with h | h <;> simp [h, hu, hrm]
  · rcases Nat.eq_zero_or_pos (buf.filterMap id).length with hlen | hlen
    · simp [StreamingGridComponent.onBatchWindow, hlen]
    · rcases hg : st.gridApi with _ | g <;>
        simp [StreamingGridComponent.onBatchWindow, hlen,
          StreamingGridComponent.processBatchUpdates, hg,
          GridAdapterService.updateRows]

/-- C1 (witness): the amended statement at scenario B's inputs. -/
theorem removal_not_special_witness :
    StreamingGridComponent.mergeUpdates [updMsg2, remMsg2] = [remMsg2] ∧
    GridCall.txnRemove [remMsg2]
      ∉ (StreamingGridComponent.onBatchWindow stC1
          [some updMsg2, some remMsg2]).2 :=
  removal_not_special updMsg2 remMsg2 (Val.str "2") (by decide) (by decide)
    (by decide) stC1 [some updMsg2, some remMsg2] [remMsg2]

/-- C2: for a window's messages all carrying the same (truthy) id, only the
last message survives `mergeUpdates`, and applying the merge to empty data
yields exactly that one row. -/
theorem lastMessagePerKey (v : Val) (msgs ms : List Obj) (m : Obj)
    (hv : truthy v = true) (hkeys : ∀ u ∈ msgs, objKey u = some v)
    (hdec : msgs = ms ++ [m]) :
    StreamingGridComponent.mergeUpdates msgs = [m] ∧
    StreamingGridComponent.applyUpdatesToData []
      (StreamingGridComponent.mergeUpdates msgs) = [m] := by
  subst hdec
  have h1 := StreamingGridComponent.mergeUpdates_sameKey_last v hv ms m hkeys
  exact ⟨h1, by
    rw [h1]; exact StreamingGridComponent.applyUpdatesToData_nil_single m⟩

/-- C2 (witness): scenario A — `{key:'1',price:10}` then `{key:'1',price:12}`
in one window yields exactly the one row `{key:'1',price:12}`. -/
theorem lastMessagePerKey_witness :
    StreamingGridComponent.mergeUpdates [msgA, msgB] = [msgB] ∧
    StreamingGridComponent.applyUpdatesToData []
      (StreamingGridComponent.mergeUpdates [msgA, msgB]) = [msgB] :=
  lastMessagePerKey (Val.str "1") [msgA, msgB] [msgA] msgB (by decide)
    (by decide) rfl

/-- C3 (counterexample): with base delay 100 ms the observed retry delays
are 100, 100, 100 — the delay before the n-th retry is the fixed configured
`reconnectDelay`, not `base * 2 ^ n`. -/
theorem backoff_not_exponential :
    StreamingService.retryDelay cfg100 0 = 100 ∧
    StreamingService.retryDelay cfg100 1 = 100 ∧
    StreamingService.retryDelay cfg100 2 = 100 ∧
    StreamingService.retryDelay cfg100 1 ≠ 100 * 2 ^ 1 := by
  decide

/-- C3 (amended): every retry is delayed by the same fixed duration
(`reconnectDelay || 1000`), independent of the attempt number; with base
100 ms the schedule is 100, 100, 100; and after the hardcoded maximum of 5
retries the loop stops with connection status `false` (there is no distinct
Failed state), the counter having advanced by 5. -/
theorem retry_fixed_delay (cfg : StreamConfig) (n m : Nat)
    (st : StreamingService.SvcState) :
    StreamingService.retryDelay cfg n = StreamingService.retryDelay cfg m ∧
    StreamingService.retrySchedule cfg100 3 = [100, 100, 100] ∧
    (StreamingService.connect st (List.replicate 6 false)).connectionStatus
      = false ∧
    (StreamingService.connect st (List.replicate 6 false)).reconnectAttempts
      = st.reconnectAttempts + 5 := by
  refine ⟨rfl, by decide, ?_, ?_⟩ <;>
    simp [StreamingService.connect, StreamingService.connectRun,
      StreamingService.connectOnce, StreamingService.maxReconnectAttempts,
      List.replicate]

/-- C4 (counterexample): two messages delivered on the subscribed topic
10 ms apart — the first is discarded by the `debounceTime(50)` stage and
appears in no emitted batch, so a delivered message is silently lost before
batching. -/
theorem debounce_drops_delivered :
    objA ∈ (StreamingService.deliveredTimed "t" msgsC4).map Prod.snd ∧
    (StreamingGridComponent.emittedBatches "t" msgsC4).join.map Prod.snd
      = [objB] ∧
    objA ∉ (StreamingGridComponent.emittedBatches "t" msgsC4).join.map
      Prod.snd := by
  decide

/-- C4 (amended): every message actually pushed to the update queue (i.e.
surviving the 50 ms debounce) appears in exactly one emitted batch, batches
preserve arrival order (their concatenation is the pushed sequence), and no
emitted batch is empty; delivered messages may however be dropped by the
debounce before batching. -/
theorem batches_partition_pushed (topic : String)
    (msgs : List StreamMessage) :
    (StreamingGridComponent.emittedBatches topic msgs).join
      = StreamingGridComponent.pushedToQueue topic msgs ∧
    ∀ b ∈ StreamingGridComponent.emittedBatches topic msgs, b ≠ [] :=
  ⟨StreamingGridComponent.join_bufferByWindow 100 _,
   StreamingGridComponent.bufferByWindow_ne_nil 100 _⟩

/-- C4 (witness): the amended statement applied to the concrete two-message
stream of the counterexample. -/
theorem batches_partition_pushed_witness :
    [((10 : Nat), objB)] ∈ StreamingGridComponent.emittedBatches "t" msgsC4 ∧
    [((10 : Nat), objB)] ≠ ([] : List (Nat × Obj)) :=
  ⟨by decide, (batches_partition_pushed "t" msgsC4).2 _ (by decide)⟩

/-- C5: applying one merged update `m` to the canonical data — if `m`'s key
is absent, the update object itself is appended as a full new row; if a row
`r` with the same key is present, it is replaced in place by the shallow
spread `{...r, ...m}`, whose fields are exactly `m`'s where `m` names them
(nested structures replaced wholesale, never deep-merged) and `r`'s
otherwise. -/
theorem reconcile_update_cases (data : List Obj) (m r : Obj) (f : String)
    (hnd : (data.map objKey).Nodup) :
    (objKey m ∉ data.map objKey →
      StreamingGridComponent.applyUpdatesToData data [m] = data ++ [m]) ∧
    (∀ pre post, data = pre ++ r :: post → objKey m = objKey r →
      StreamingGridComponent.applyUpdatesToData data [m]
        = pre ++ spread r m :: post) ∧
    lookupKV (spread r m) f
      = (if (lookupKV m f).isSome then lookupKV m f else lookupKV r f) := by
  refine ⟨fun habs =>
    StreamingGridComponent.applyUpdatesToData_absent data m hnd habs,
    ?_, lookupKV_spread r m f⟩
  intro pre post hdec hk
  subst hdec
  exact StreamingGridComponent.applyUpdatesToData_present pre post r m hnd hk

/-- C5 (witness): updating a present row with a message naming only `meta`
keeps `price` and replaces the nested `meta` object wholesale. -/
theorem reconcile_update_cases_witness :
    StreamingGridComponent.applyUpdatesToData [rowX] [mX]
      = [spread rowX mX] ∧
    lookupKV (spread rowX mX) "price" = some (Val.num 10) ∧
    lookupKV (spread rowX mX) "meta" = some (Val.obj [("b", 2)]) := by
  have h := (reconcile_update_cases [rowX] mX rowX "price" (by decide)).2.1
    [] [] rfl (by decide)
  exact ⟨by simpa using h, by decide, by decide⟩

/-- C6: a flush window whose buffer carries no messages leaves the
component state untouched and issues no rendering-surface call — the
batch-processing path is not entered. -/
theorem emptyWindow_no_call (st : StreamingGridComponent.CompState)
    (buf : List (Option Obj)) (h : buf.filterMap id = []) :
    StreamingGridComponent.onBatchWindow st buf = (st, []) := by
  simp [StreamingGridComponent.onBatchWindow, h]

/-- C6 (witness): an all-null window on a ready component. -/
theorem emptyWindow_no_call_witness :
    StreamingGridComponent.onBatchWindow stEmpty [none] = (stEmpty, []) :=
  emptyWindow_no_call stEmpty [none] rfl

/-- C7 (counterexample): flushing a window that adds a brand-new row to an
empty table issues exactly one `updateRows` transaction carrying it — no
`addRows` call is made for the added row (and nothing else is issued), so
the Diff is not translated into the three primitive operations. -/
theorem consumeDiff_not_three_ops :
    (StreamingGridComponent.onBatchWindow stEmpty [some msgA]).1.rowData
      = [msgA] ∧
    (StreamingGridComponent.onBatchWindow stEmpty [some msgA]).2
      = [GridCall.txnUpdate [msgA]] ∧
    GridCall.txnAdd [msgA]
      ∉ (StreamingGridComponent.onBatchWindow stEmpty [some msgA]).2 := by
  refine ⟨rfl, rfl, by decide⟩

/-- C7 (amended): every non-empty flush on a ready grid issues exactly one
rendering-surface call per cycle — a single `updateRows` transaction
carrying all merged rows — never one call per message; `addRows` and
`removeRows` are not used by the flush path. -/
theorem flush_one_transaction (st : StreamingGridComponent.CompState)
    (g : GridState) (buf : List (Option Obj)) (hg : st.gridApi = some g)
    (hne : buf.filterMap id ≠ []) :
    (StreamingGridComponent.onBatchWindow st buf).2
      = [GridCall.txnUpdate
          (StreamingGridComponent.mergeUpdates (buf.filterMap id))] := by
  have hlen : 0 < (buf.filterMap id).length := List.length_pos.mpr hne
  simp [StreamingGridComponent.onBatchWindow, hlen,
    StreamingGridComponent.processBatchUpdates, hg,
    GridAdapterService.updateRows]

/-- C7 (witness): the amended statement on a ready grid and a one-message
window. -/
theorem flush_one_transaction_witness :
    (StreamingGridComponent.onBatchWindow stC1 [some msgB]).2
      = [GridCall.txnUpdate (StreamingGridComponent.mergeUpdates [msgB])] :=
  flush_one_transaction stC1 grid2 [some msgB] rfl (by decide)

/-- C8 (counterexample): one failure followed by a successful reconnection
leaves `reconnectAttempts` at 1, not 0 — the counter is not reset by a
successful reconnect. -/
theorem reconnect_keeps_counter :
    (StreamingService.connect svcInit [false, true]).connectionStatus
      = true ∧
    (StreamingService.connect svcInit [false, true]).reconnectAttempts = 1 ∧
    (StreamingService.connect svcInit [false, true]).reconnectAttempts
      ≠ 0 := by
  decide

/-- C8 (amended): the retry counter is reset to zero by `disconnect()`, not
by a successful reconnection: after a failure and a successful retry the
counter holds the number of failures seen in that `connect` run. -/
theorem attempts_reset_on_disconnect_only (st : StreamingService.SvcState) :
    (StreamingService.disconnect st).reconnectAttempts = 0 ∧
    (StreamingService.connect st [false, true]).connectionStatus = true ∧
    (StreamingService.connect st [false, true]).reconnectAttempts
      = st.reconnectAttempts + 1 := by
  refine ⟨rfl, ?_, ?_⟩ <;>
    simp [StreamingService.connect, StreamingService.connectRun,
      StreamingService.connectOnce, StreamingService.maxReconnectAttempts]

/-- C9: `applyFilter` and `clearFilters` — both on the adapter and on the
component — change only the grid's filter model: the grid's underlying row
store and the component's canonical `rowData$` value are unchanged. -/
theorem filters_preserve_rowData (api : Option GridState) (f : GridFilter)
    (st : StreamingGridComponent.CompState) (c : String) (v : Val) :
    ((GridAdapterService.applyFilter api f).1).map GridState.rowData
      = api.map GridState.rowData ∧
    ((GridAdapterService.clearFilters api).1).map GridState.rowData
      = api.map GridState.rowData ∧
    (StreamingGridComponent.applyFilter st c v).1.rowData = st.rowData ∧
    ((StreamingGridComponent.applyFilter st c v).1.gridApi).map
        GridState.rowData
      = st.gridApi.map GridState.rowData ∧
    (StreamingGridComponent.clearFilters st).1.rowData = st.rowData ∧
    ((StreamingGridComponent.clearFilters st).1.gridApi).map
        GridState.rowData
      = st.gridApi.map GridState.rowData := by
  rcases api with _ | g <;> rcases hst : st.gridApi with _ | g2 <;>
    simp [GridAdapterService.applyFilter, GridAdapterService.clearFilters,
      StreamingGridComponent.applyFilter,
      StreamingGridComponent.clearFilters, hst]

/-- C10: every modelled `GridAdapterService` operation is total on an
absent grid handle: queries return the neutral value (empty lists, empty
selection, count zero) and mutating/exporting operations are no-ops that
issue no grid call. -/
theorem nullGuard_neutral (f : GridFilter) (fn : Option String)
    (rows : List Obj) :
    GridAdapterService.getSelectedRows none = [] ∧
    GridAdapterService.getSelectedNodes none = [] ∧
    GridAdapterService.getSelection none
      = { selectedRows := [], selectedNodes := [], selectedCount := 0 } ∧
    GridAdapterService.getVisibleRowCount none = 0 ∧
    GridAdapterService.applyFilter none f = (none, []) ∧
    GridAdapterService.clearFilters none = (none, []) ∧
    GridAdapterService.addRows none rows = (none, []) ∧
    GridAdapterService.updateRows none rows = (none, []) ∧
    GridAdapterService.removeRows none rows = (none, []) ∧
    GridAdapterService.exportToCsv none fn = (none, []) ∧
    GridAdapterService.exportSelectedToCsv none fn = (none, []) :=
  ⟨rfl, rfl, rfl, rfl, rfl, rfl, rfl, rfl, rfl, rfl, rfl⟩

/-- C10 (witness): the null-guard statement at concrete arguments. -/
theorem nullGuard_neutral_witness :
    GridAdapterService.getSelectedRows none = [] ∧
    GridAdapterService.getSelectedNodes none = [] ∧
    GridAdapterService.getSelection none
      = { selectedRows := [], selectedNodes := [], selectedCount := 0 } ∧
    GridAdapterService.getVisibleRowCount none = 0 ∧
    GridAdapterService.applyFilter none
      { column := "c", filterType := "text", filterValue := Val.num 1 }
      = (none, []) ∧
    GridAdapterService.clearFilters none = (none, []) ∧
    GridAdapterService.addRows none [msgA] = (none, []) ∧
    GridAdapterService.updateRows none [msgA] = (none, []) ∧
    GridAdapterService.removeRows none [msgA] = (none, []) ∧
    GridAdapterService.exportToCsv none (some "f") = (none, []) ∧
    GridAdapterService.exportSelectedToCsv none (some "f") = (none, []) :=
  nullGuard_neutral
    { column := "c", filterType := "text", filterValue := Val.num 1 }
    (some "f") [msgA]
